import Mathlib

/-!
Verification development for the mcp-ssh-wingman repository: a JSON-RPC (MCP)
server exposing read-only terminal observation over tmux or GNU screen.

The embedding follows the Go sources:
  - internal/server (the two-backend variant: the one whose NewServer signature
    matches cmd/mcp-ssh-wingman/main.go): Server, handleRequest, listTools,
    callTool, listResources, readResource, Start;
  - internal/terminal: the WindowManager interface, embedded as a record of
    operations over an abstract backend state;
  - internal/screen/manager.go: the screen-backed Manager, with the external
    `screen` binary's behaviour supplied by an explicit environment record.

Go interface values become a record of functions plus an explicit state value;
fallible Go calls `(T, error)` become `Except String T`; external command
invocations are modelled by an environment record giving each invocation's
outcome; JSON values decoded into Go `interface{}` become the `Json` inductive
(Go decodes every JSON number to float64; exact decimal values are modelled by
rationals, with Go's `int(float64)` conversion modelled as truncation toward
zero).
-/

namespace Wingman

/-- A decoded JSON value, as produced by Go's encoding/json into `interface\x7b\x7d`:
null, bool, float64 (modelled as an exact rational), string, `[]interface\x7b\x7d`,
or `map[string]interface\x7b\x7d` (modelled as an association list; decoded maps
have unique keys). -/
inductive Json where
  | null : Json
  | bool (b : Bool) : Json
  | num (q : ℚ) : Json
  | str (s : String) : Json
  | arr (elems : List Json) : Json
  | obj (fields : List (String × Json)) : Json

/-- A JSON-RPC id: a number or a string (an absent id is `Option.none` at the
use sites). -/
inductive JsonId where
  | num (q : ℚ) : JsonId
  | str (s : String) : JsonId
  deriving DecidableEq

/-- Lookup of a key in a decoded JSON object / Go map. -/
def jsonLookup (fields : List (String × Json)) (k : String) : Option Json :=
  match fields with
  | [] => none
  | (k2, v) :: rest => if k2 = k then some v else jsonLookup rest k

/-- Go's `int(v)` conversion of a float64: truncation toward zero. -/
def truncTowardZero (q : ℚ) : Int :=
  Int.tdiv q.num q.den

/-- mcp.JSONRPCRequest: jsonrpc version, optional id, method, opaque params
(absent params decode to the nil interface, modelled as `Json.null`). -/
structure JSONRPCRequest where
  jsonrpc : String
  id : Option JsonId
  method : String
  params : Json

/-- mcp.JSONRPCError: code and message (the optional data field is never set by
this server). -/
structure JSONRPCError where
  code : Int
  message : String
  deriving DecidableEq

/-- mcp.Content: one content item of a tool result. -/
structure Content where
  type : String
  text : String
  deriving DecidableEq

/-- mcp.CallToolResult: content items plus the tool-level error flag. -/
structure CallToolResult where
  content : List Content
  isError : Bool
  deriving DecidableEq

/-- mcp.Property: one property of a tool's input schema. -/
structure Property where
  type : String
  description : String
  deriving DecidableEq

/-- mcp.InputSchema: a JSON-Schema-like object describing a tool's input. -/
structure InputSchema where
  type : String
  properties : List (String × Property)
  required : List String
  deriving DecidableEq

/-- mcp.Tool: a tool descriptor. -/
structure Tool where
  name : String
  description : String
  inputSchema : InputSchema
  deriving DecidableEq

/-- mcp.ListToolsResult. -/
structure ListToolsResult where
  tools : List Tool
  deriving DecidableEq

/-- mcp.Resource: a resource descriptor. -/
structure Resource where
  uri : String
  name : String
  description : String
  mimeType : String
  deriving DecidableEq

/-- mcp.ListResourcesResult. -/
structure ListResourcesResult where
  resources : List Resource
  deriving DecidableEq

/-- mcp.ResourceContent: one content item of a resources/read result. -/
structure ResourceContent where
  uri : String
  mimeType : String
  text : String
  deriving DecidableEq

/-- mcp.ReadResourceResult. -/
structure ReadResourceResult where
  contents : List ResourceContent
  deriving DecidableEq

/-- mcp.ToolsCapability. -/
structure ToolsCapability where
  listChanged : Bool
  deriving DecidableEq

/-- mcp.ResourcesCapability. -/
structure ResourcesCapability where
  subscribe : Bool
  listChanged : Bool
  deriving DecidableEq

/-- mcp.ServerCapabilities. -/
structure ServerCapabilities where
  tools : Option ToolsCapability
  resources : Option ResourcesCapability
  deriving DecidableEq

/-- mcp.ServerInfo. -/
structure ServerInfo where
  name : String
  version : String
  deriving DecidableEq

/-- mcp.InitializeResult (named InitResult here). -/
structure InitResult where
  protocolVersion : String
  capabilities : ServerCapabilities
  serverInfo : ServerInfo
  deriving DecidableEq

/-- The possible result payloads a response can carry (Go uses `interface\x7b\x7d`;
the dispatcher only ever stores one of these five result types). -/
inductive MCPResult where
  | initRes (r : InitResult) : MCPResult
  | toolsList (r : ListToolsResult) : MCPResult
  | toolCall (r : CallToolResult) : MCPResult
  | resourcesList (r : ListResourcesResult) : MCPResult
  | resourceRead (r : ReadResourceResult) : MCPResult
  deriving DecidableEq

/-- mcp.JSONRPCResponse: the type itself does not force result and error to be
mutually exclusive; both are optional. -/
structure JSONRPCResponse where
  jsonrpc : String
  id : Option JsonId
  result : Option MCPResult
  error : Option JSONRPCError

/-- mcp.CallToolRequest: the decoded params of a tools/call request (a nil
arguments map and an empty one are indistinguishable to the lookups performed
on them, so both are the empty list here). -/
structure CallToolRequest where
  name : String
  arguments : List (String × Json)

/-- mcp.ReadResourceRequest: the decoded params of a resources/read request. -/
structure ReadResourceRequest where
  uri : String

/-- Decoding of tools/call params, mirroring Server.callTool's
json.Marshal(request.Params) followed by json.Unmarshal into
mcp.CallToolRequest: null yields the zero value, a non-object fails, a wrongly
typed name or arguments field fails, and missing fields keep their zero value.
The JSON field keys "name" and "arguments" are modelled from the spec's wire
examples, the internal/mcp type declarations being absent from the provided
sources. -/
def decodeCallToolRequest : Json → Except String CallToolRequest
  | Json.null => Except.ok { name := "", arguments := [] }
  | Json.obj fields =>
    match jsonLookup fields "name" with
    | some (Json.str n) =>
      (match jsonLookup fields "arguments" with
       | some (Json.obj a) => Except.ok { name := n, arguments := a }
       | some Json.null => Except.ok { name := n, arguments := [] }
       | none => Except.ok { name := n, arguments := [] }
       | some _ => Except.error "failed to unmarshal tool request: arguments is not an object")
    | some Json.null =>
      (match jsonLookup fields "arguments" with
       | some (Json.obj a) => Except.ok { name := "", arguments := a }
       | some Json.null => Except.ok { name := "", arguments := [] }
       | none => Except.ok { name := "", arguments := [] }
       | some _ => Except.error "failed to unmarshal tool request: arguments is not an object")
    | none =>
      (match jsonLookup fields "arguments" with
       | some (Json.obj a) => Except.ok { name := "", arguments := a }
       | some Json.null => Except.ok { name := "", arguments := [] }
       | none => Except.ok { name := "", arguments := [] }
       | some _ => Except.error "failed to unmarshal tool request: arguments is not an object")
    | some _ => Except.error "failed to unmarshal tool request: name is not a string"
  | _ => Except.error "failed to unmarshal tool request: params is not an object"

/-- Decoding of resources/read params, mirroring Server.readResource's
marshal/unmarshal into mcp.ReadResourceRequest; the field key "uri" is
modelled from the spec's wire description. -/
def decodeReadResourceRequest : Json → Except String ReadResourceRequest
  | Json.null => Except.ok { uri := "" }
  | Json.obj fields =>
    match jsonLookup fields "uri" with
    | some (Json.str u) => Except.ok { uri := u }
    | some Json.null => Except.ok { uri := "" }
    | none => Except.ok { uri := "" }
    | some _ => Except.error "failed to unmarshal resource request: uri is not a string"
  | _ => Except.error "failed to unmarshal resource request: params is not an object"

/-- terminal.WindowManager: the backend interface consumed by the dispatcher,
embedded as a record of operations over an abstract backend state `σ`. Only
SetWindow mutates the manager's own state (per the Go interface, it returns
nothing and cannot fail); the other operations read external state and are
modelled as functions of the current manager state. -/
structure WindowManager (σ : Type) where
  EnsureSession : σ → Except String Unit
  SessionExists : σ → Except String Bool
  CapturePane : σ → Except String String
  GetPaneInfo : σ → Except String (List (String × String))
  GetScrollbackHistory : σ → Int → Except String String
  KillSession : σ → Except String Unit
  ListWindows : σ → Except String (List (List (String × String)))
  SetWindow : σ → String → σ
  GetWindow : σ → String

/-- server.Server: the MCP server, holding the backend operations, the current
backend state, and the backend type string used in descriptions. The reader
and writer streams are supplied to Start directly. -/
structure Server (σ : Type) where
  ops : WindowManager σ
  terminalManager : σ
  terminalType : String

/-- server.ProtocolVersion. -/
def ProtocolVersion : String := "2024-11-05"

/-- server.ServerName. -/
def ServerName : String := "mcp-ssh-wingman"

/-- server.ServerVersion (default build value). -/
def ServerVersion : String := "dev"

/-- Go map access `m[k]` on a string map: the zero value "" when absent. -/
def mapGet (m : List (String × String)) (k : String) : String :=
  match m.lookup k with
  | some v => v
  | none => ""

/-- Server.handleInitialize (named handleInit here): always succeeds with the
static protocol version, capability flags and server identity. -/
def Server.handleInit {σ : Type} (_s : Server σ) (_request : JSONRPCRequest) :
    Except String InitResult :=
  Except.ok
    { protocolVersion := ProtocolVersion
      capabilities :=
        { tools := some { listChanged := false }
          resources := some { subscribe := false, listChanged := false } }
      serverInfo := { name := ServerName, version := ServerVersion } }

/-- Server.listTools: the static five-tool descriptor set, with descriptions
mentioning the backend type. -/
def Server.listTools {σ : Type} (s : Server σ) : ListToolsResult :=
  { tools :=
      [ { name := "read_terminal"
          description := "Read the current terminal content from the " ++ s.terminalType ++ " session"
          inputSchema := { type := "object", properties := [], required := [] } }
      , { name := "read_scrollback"
          description := "Read scrollback history from the " ++ s.terminalType ++ " session"
          inputSchema :=
            { type := "object"
              properties :=
                [("lines",
                  { type := "number"
                    description := "Number of lines of scrollback history to retrieve (default: 100)" })]
              required := [] } }
      , { name := "get_terminal_info"
          description := "Get information about the terminal (dimensions, current path, etc.)"
          inputSchema := { type := "object", properties := [], required := [] } }
      , { name := "list_windows"
          description := "List all windows/panes in the " ++ s.terminalType ++ " session"
          inputSchema := { type := "object", properties := [], required := [] } }
      , { name := "set_window"
          description := "Set the active window/pane in the " ++ s.terminalType ++ " session"
          inputSchema :=
            { type := "object"
              properties :=
                [("window_id",
                  { type := "string"
                    description := "The window/pane ID to switch to" })]
              required := ["window_id"] } } ] }

/-- Server.callTool: decodes the tool request from params and dispatches to
the named tool handler; backend errors become a successful tool result with
isError set, while decode failures and unknown tool names are returned as Go
errors (which the dispatcher turns into RPC-level errors). Returns the updated
server because set_window mutates the backend's window-scoping state. -/
def Server.callTool {σ : Type} (s : Server σ) (request : JSONRPCRequest) :
    Except String CallToolResult × Server σ :=
  match decodeCallToolRequest request.params with
  | Except.error e => (Except.error e, s)
  | Except.ok toolRequest =>
    match toolRequest.name with
    | "read_terminal" =>
      (match s.ops.CapturePane s.terminalManager with
       | Except.error err =>
         (Except.ok { content := [{ type := "text", text := "Error: " ++ err }], isError := true }, s)
       | Except.ok content =>
         (Except.ok { content := [{ type := "text", text := content }], isError := false }, s))
    | "read_scrollback" =>
      let lines : Int :=
        match jsonLookup toolRequest.arguments "lines" with
        | some (Json.num v) => truncTowardZero v
        | _ => 100
      (match s.ops.GetScrollbackHistory s.terminalManager lines with
       | Except.error err =>
         (Except.ok { content := [{ type := "text", text := "Error: " ++ err }], isError := true }, s)
       | Except.ok content =>
         (Except.ok { content := [{ type := "text", text := content }], isError := false }, s))
    | "get_terminal_info" =>
      (match s.ops.GetPaneInfo s.terminalManager with
       | Except.error err =>
         (Except.ok { content := [{ type := "text", text := "Error: " ++ err }], isError := true }, s)
       | Except.ok info =>
         let infoText :=
           "Terminal Info (" ++ s.terminalType ++ "):\n- Width: " ++ mapGet info "width"
             ++ "\n- Height: " ++ mapGet info "height"
             ++ "\n- Current Path: " ++ mapGet info "current_path"
             ++ "\n- Window/Pane ID: " ++ s.ops.GetWindow s.terminalManager
         (Except.ok { content := [{ type := "text", text := infoText }], isError := false }, s))
    | "list_windows" =>
      (match s.ops.ListWindows s.terminalManager with
       | Except.error err =>
         (Except.ok { content := [{ type := "text", text := "Error: " ++ err }], isError := true }, s)
       | Except.ok windows =>
         let windowList :=
           "Available windows/panes in " ++ s.terminalType ++ " session:\n"
             ++ String.join (windows.map (fun window =>
                  "- ID: " ++ mapGet window "id" ++ ", Name: " ++ mapGet window "name" ++ "\n"))
         (Except.ok { content := [{ type := "text", text := windowList }], isError := false }, s))
    | "set_window" =>
      (match jsonLookup toolRequest.arguments "window_id" with
       | some (Json.str windowID) =>
         (Except.ok
            { content := [{ type := "text", text := "Switched to window/pane: " ++ windowID }]
              isError := false },
          { s with terminalManager := s.ops.SetWindow s.terminalManager windowID })
       | _ =>
         (Except.ok
            { content := [{ type := "text", text := "Error: window_id must be a string" }]
              isError := true }, s))
    | other => (Except.error ("unknown tool: " ++ other), s)

/-- Server.listResources: the static two-resource descriptor set. -/
def Server.listResources {σ : Type} (_s : Server σ) : ListResourcesResult :=
  { resources :=
      [ { uri := "terminal://current"
          name := "Current Terminal"
          description := "Current terminal content"
          mimeType := "text/plain" }
      , { uri := "terminal://info"
          name := "Terminal Information"
          description := "Terminal dimensions and metadata"
          mimeType := "text/plain" } ] }

/-- Server.readResource: decodes the uri from params and dispatches by exact
URI match; backend errors are returned raw (the dispatcher turns them into
RPC-level errors), and an unknown URI is an error naming the URI. -/
def Server.readResource {σ : Type} (s : Server σ) (request : JSONRPCRequest) :
    Except String ReadResourceResult :=
  match decodeReadResourceRequest request.params with
  | Except.error e => Except.error e
  | Except.ok resourceRequest =>
    match resourceRequest.uri with
    | "terminal://current" =>
      (match s.ops.CapturePane s.terminalManager with
       | Except.error err => Except.error err
       | Except.ok content =>
         Except.ok
           { contents := [{ uri := "terminal://current", mimeType := "text/plain", text := content }] })
    | "terminal://info" =>
      (match s.ops.GetPaneInfo s.terminalManager with
       | Except.error err => Except.error err
       | Except.ok info =>
         let infoText :=
           "Terminal Information (" ++ s.terminalType ++ "):\n\nDimensions: "
             ++ mapGet info "width" ++ "x" ++ mapGet info "height"
             ++ "\nCurrent Path: " ++ mapGet info "current_path"
             ++ "\nWindow/Pane ID: " ++ s.ops.GetWindow s.terminalManager
         Except.ok
           { contents := [{ uri := "terminal://info", mimeType := "text/plain", text := infoText }] })
    | other => Except.error ("unknown resource: " ++ other)

/-- Server.handleRequest: builds the response for one decoded request, routing
by exact method name; every branch sets exactly one of result or error on a
response whose id echoes the request's id. Returns the updated server state. -/
def Server.handleRequest {σ : Type} (s : Server σ) (request : JSONRPCRequest) :
    JSONRPCResponse × Server σ :=
  match request.method with
  | "initialize" =>
    (match s.handleInit request with
     | Except.ok result =>
       ({ jsonrpc := "2.0", id := request.id, result := some (MCPResult.initRes result), error := none }, s)
     | Except.error e =>
       ({ jsonrpc := "2.0", id := request.id, result := none,
          error := some { code := -32603, message := e } }, s))
  | "tools/list" =>
    ({ jsonrpc := "2.0", id := request.id, result := some (MCPResult.toolsList s.listTools),
       error := none }, s)
  | "tools/call" =>
    (match s.callTool request with
     | (Except.ok result, s2) =>
       ({ jsonrpc := "2.0", id := request.id, result := some (MCPResult.toolCall result), error := none }, s2)
     | (Except.error e, s2) =>
       ({ jsonrpc := "2.0", id := request.id, result := none,
          error := some { code := -32603, message := e } }, s2))
  | "resources/list" =>
    ({ jsonrpc := "2.0", id := request.id, result := some (MCPResult.resourcesList s.listResources),
       error := none }, s)
  | "resources/read" =>
    (match s.readResource request with
     | Except.ok result =>
       ({ jsonrpc := "2.0", id := request.id, result := some (MCPResult.resourceRead result), error := none }, s)
     | Except.error e =>
       ({ jsonrpc := "2.0", id := request.id, result := none,
          error := some { code := -32603, message := e } }, s))
  | other =>
    ({ jsonrpc := "2.0", id := request.id, result := none,
       error := some { code := -32601, message := "Method not found: " ++ other } }, s)

/-- The body of Server.Start's serving loop: one response is produced and
written per successfully decoded request, threading the backend state. -/
def Server.processRequests {σ : Type} (s : Server σ) :
    List JSONRPCRequest → List JSONRPCResponse
  | [] => []
  | r :: rs =>
    let step := s.handleRequest r
    step.1 :: step.2.processRequests rs

/-- The outcome of Server.Start: the responses written to the output stream
and either clean end-of-stream (ok) or a fatal error. -/
structure StartOutcome where
  output : List JSONRPCResponse
  result : Except String Unit

/-- Server.Start: performs EnsureSession first; on failure it returns the
wrapped error having written nothing to the output stream, otherwise it runs
the serving loop over the decoded input requests until end-of-stream. -/
def Server.Start {σ : Type} (s : Server σ) (input : List JSONRPCRequest) : StartOutcome :=
  match s.ops.EnsureSession s.terminalManager with
  | Except.error err =>
    { output := [], result := Except.error ("failed to setup terminal session: " ++ err) }
  | Except.ok _ =>
    { output := s.processRequests input, result := Except.ok () }

/-- cmd/mcp-ssh-wingman's main: runs the server and treats a Start error as
fatal via log.Fatalf, which exits the process with a non-zero status (modelled
as exit code 1); a clean end-of-stream exits 0. Returns the exit code and the
responses written to standard output. -/
def mainRun {σ : Type} (s : Server σ) (input : List JSONRPCRequest) :
    Nat × List JSONRPCResponse :=
  let o := s.Start input
  match o.result with
  | Except.error _ => (1, o.output)
  | Except.ok _ => (0, o.output)

/-! The screen-backed manager (internal/screen/manager.go). External `screen`,
`cat`, `tail` and `rm` invocations are modelled by an environment record
giving each invocation's outcome. -/

/-- The failure of an external command whose stderr is captured: the Go error's
description and the captured stderr text. -/
structure CmdFailure where
  errMsg : String
  stderr : String

/-- The failure of a `cmd.Run()`: either an exec.ExitError with an exit code,
or any other error, with its description. -/
inductive CmdError where
  | exit (code : Int) (msg : String) : CmdError
  | other (msg : String) : CmdError

/-- Outcomes of the external invocations made by the screen manager. -/
structure ScreenEnv where
  lsRun : Except CmdError String
  createRun : Except String Unit
  hardcopyRun : Except CmdFailure Unit
  catRun : Except CmdFailure String
  infoRun : Except String String
  scrollHardcopyRun : Except CmdFailure Unit
  tailRun : Int → Except CmdFailure String
  windowsRun : Except String String
  killRun : Except String Unit

/-- screen.Manager: the session name and the mutable window-scoping field
(empty string means the current/default window). -/
structure ScreenManager where
  sessionName : String
  windowID : String

/-- screen.NewManager: an empty session name falls back to the package's
session name constant "mcp-wingman". -/
def screenNewManager (sessionName : String) : ScreenManager :=
  { sessionName := if sessionName = "" then "mcp-wingman" else sessionName
    windowID := "" }

/-- Go strings.Fields: splits around runs of whitespace. -/
def goFields (s : String) : List String :=
  (s.split Char.isWhitespace).filter (fun t => t ≠ "")

/-- Go strings.Contains, via splitOn: a non-empty pattern occurs in s iff
splitting on it produces at least two pieces. -/
def containsSub (s pat : String) : Bool :=
  (s.splitOn pat).length ≥ 2

/-- The part of s after its first "." (Go s[dotIndex+1:]), or none when s has
no dot. -/
def afterFirstDot (s : String) : Option String :=
  match s.splitOn "." with
  | [] => none
  | [_] => none
  | _ :: rest => some (String.intercalate "." rest)

/-- Go strconv.Atoi: an optional sign followed by at least one digit (very
large inputs, which Atoi rejects as out of range, are not modelled). -/
def goAtoi (s : String) : Option Int :=
  let digitsVal : List Char → Int := fun l =>
    Int.ofNat (l.foldl (fun a c => a * 10 + (c.toNat - 48)) 0)
  let core : List Char → Int → Option Int := fun digits sign =>
    if digits = [] then none
    else if digits.all Char.isDigit then some (sign * digitsVal digits) else none
  match s.data with
  | [] => none
  | '-' :: rest => core rest (-1)
  | '+' :: rest => core rest 1
  | l => core l 1

/-- One line of `screen -ls` output: a trimmed line mentioning "." and either
"Detached" or "Attached" contributes the text after the first dot of its first
field as a session name. -/
def parseSessionLine (raw : String) : Option String :=
  let line := raw.trim
  if containsSub line "." && (containsSub line "Detached" || containsSub line "Attached") then
    match goFields line with
    | [] => none
    | sessionPart :: _ => afterFirstDot sessionPart
  else none

/-- The session names parsed from `screen -ls` output, in line order. -/
def parseScreenSessions (output : String) : List String :=
  (output.splitOn "\n").filterMap parseSessionLine

/-- screen.ListSessions: `screen -ls` exiting 1 means no sessions (empty list,
no error); any other failure is an error; success parses the output. -/
def screenListSessions (env : ScreenEnv) : Except String (List String) :=
  match env.lsRun with
  | Except.error (CmdError.exit 1 _) => Except.ok []
  | Except.error (CmdError.exit _ msg) => Except.error ("failed to list sessions: " ++ msg)
  | Except.error (CmdError.other msg) => Except.error ("failed to list sessions: " ++ msg)
  | Except.ok output => Except.ok (parseScreenSessions output)

/-- Manager.SessionExists: whether the manager's session name occurs among the
listed sessions. -/
def ScreenManager.SessionExists (m : ScreenManager) (env : ScreenEnv) : Except String Bool :=
  match screenListSessions env with
  | Except.error e => Except.error e
  | Except.ok sessions => Except.ok (sessions.contains m.sessionName)

/-- Manager.EnsureSession: checks existence, creating the session in detached
mode when absent; idempotent when the session already exists. -/
def ScreenManager.EnsureSession (m : ScreenManager) (env : ScreenEnv) : Except String Unit :=
  match m.SessionExists env with
  | Except.error e => Except.error ("failed to check session: " ++ e)
  | Except.ok true => Except.ok ()
  | Except.ok false =>
    match env.createRun with
    | Except.error e => Except.error ("failed to create screen session: " ++ e)
    | Except.ok _ => Except.ok ()

/-- The target of window-scoped screen invocations: session name, or
session:window when a window is selected. -/
def ScreenManager.sessionTarget (m : ScreenManager) : String :=
  if m.windowID ≠ "" then m.sessionName ++ ":" ++ m.windowID else m.sessionName

/-- Manager.CapturePane: hardcopy to a temporary file, then read it back; each
step's failure is wrapped with the step's description and the captured
stderr. -/
def ScreenManager.CapturePane (_m : ScreenManager) (env : ScreenEnv) : Except String String :=
  match env.hardcopyRun with
  | Except.error f =>
    Except.error ("failed to capture screen content: " ++ f.errMsg ++ " (stderr: " ++ f.stderr ++ ")")
  | Except.ok _ =>
    match env.catRun with
    | Except.error f =>
      Except.error ("failed to read captured content: " ++ f.errMsg ++ " (stderr: " ++ f.stderr ++ ")")
    | Except.ok out => Except.ok out

/-- Manager.GetPaneInfo: on `screen -Q info` failure, falls back to the
documented default values instead of failing; on success the same defaults
plus the trimmed info output (screen does not easily expose dimensions or the
current path). -/
def ScreenManager.GetPaneInfo (m : ScreenManager) (env : ScreenEnv) :
    Except String (List (String × String)) :=
  match env.infoRun with
  | Except.error _ =>
    Except.ok
      [("width", "80"), ("height", "24"), ("current_path", "unknown"), ("window_id", m.windowID)]
  | Except.ok out =>
    let info := out.trim
    Except.ok
      [("width", "80"), ("height", "24"), ("current_path", "unknown"), ("window_id", m.windowID),
       ("info", info)]

/-- Manager.GetScrollbackHistory: hardcopy including the scrollback buffer,
then read the trailing `lines` lines back with tail. -/
def ScreenManager.GetScrollbackHistory (_m : ScreenManager) (env : ScreenEnv) (lines : Int) :
    Except String String :=
  match env.scrollHardcopyRun with
  | Except.error f =>
    Except.error ("failed to capture scrollback: " ++ f.errMsg ++ " (stderr: " ++ f.stderr ++ ")")
  | Except.ok _ =>
    match env.tailRun lines with
    | Except.error f =>
      Except.error ("failed to read scrollback content: " ++ f.errMsg ++ " (stderr: " ++ f.stderr ++ ")")
    | Except.ok out => Except.ok out

/-- Manager.listWindowsFallback: the single default-window entry. -/
def listWindowsFallback : List (List (String × String)) :=
  [[("id", "0"), ("name", "default")]]

/-- Insert-or-update on the window-number map (Go windowData[n] = v). -/
def setWindowData (data : List (Int × String)) (k : Int) (v : String) : List (Int × String) :=
  match data with
  | [] => [(k, v)]
  | (k2, v2) :: rest => if k2 = k then (k, v) :: rest else (k2, v2) :: setWindowData rest k v

/-- Assoc lookup on the window-number map. -/
def lookupWindowData (data : List (Int × String)) (k : Int) : Option String :=
  match data with
  | [] => none
  | (k2, v) :: rest => if k2 = k then some v else lookupWindowData rest k

/-- One step of the field scan in listWindowsOriginal: a purely numeric field
starts a new window entry and becomes the current window; any other field,
when a current window exists, becomes that window's title, with a trailing
"*" or "-" indicator re-appended after the bare title. -/
def stepField (acc : List (Int × String) × Int) (field : String) :
    List (Int × String) × Int :=
  match goAtoi field with
  | some windowNum => (setWindowData acc.1 windowNum "", windowNum)
  | none =>
    if acc.2 ≥ 0 then
      let title :=
        if field.endsWith "*" || field.endsWith "-" then
          let indicator := field.takeRight 1
          let bare := field.dropRight 1
          if bare ≠ "" then bare ++ indicator else indicator
        else field
      (setWindowData acc.1 acc.2 title, acc.2)
    else acc

/-- Insertion into an ascending list of window numbers. -/
def insertSorted (x : Int) : List Int → List Int
  | [] => [x]
  | y :: ys => if x ≤ y then x :: y :: ys else y :: insertSorted x ys

/-- Ascending sort of the collected window numbers (the Go code bubble-sorts
the keys of the window map). -/
def sortInts : List Int → List Int
  | [] => []
  | x :: xs => insertSorted x (sortInts xs)

/-- The result rows built from the window map: sorted by window number; the
display name is the number, followed by the title when one was recorded. -/
def buildWindows (data : List (Int × String)) : List (List (String × String)) :=
  (sortInts (data.map Prod.fst)).map (fun num =>
    let title :=
      match lookupWindowData data num with
      | some t => t
      | none => ""
    let displayName := if title ≠ "" then toString num ++ " " ++ title else toString num
    [("id", toString num), ("name", displayName)])

/-- Manager.listWindowsOriginal: queries `screen -Q windows`; a failed query,
empty output, or a parse yielding no windows all fall back to the single
default entry. -/
def ScreenManager.listWindowsOriginal (_m : ScreenManager) (env : ScreenEnv) :
    Except String (List (List (String × String))) :=
  match env.windowsRun with
  | Except.error _ => Except.ok listWindowsFallback
  | Except.ok raw =>
    let output := raw.trim
    if output = "" then Except.ok listWindowsFallback
    else
      let fields := goFields output
      let scan := fields.foldl stepField ([], -1)
      let windows := buildWindows scan.1
      if windows = [] then Except.ok listWindowsFallback else Except.ok windows

/-- Manager.ListWindows: delegates to listWindowsOriginal. -/
def ScreenManager.ListWindows (m : ScreenManager) (env : ScreenEnv) :
    Except String (List (List (String × String))) :=
  m.listWindowsOriginal env

/-- Manager.KillSession: runs `screen -X quit` and returns its outcome. -/
def ScreenManager.KillSession (_m : ScreenManager) (env : ScreenEnv) : Except String Unit :=
  env.killRun

/-- Manager.SetWindow: pure mutation of the window-scoping field. -/
def ScreenManager.SetWindow (m : ScreenManager) (windowID : String) : ScreenManager :=
  { m with windowID := windowID }

/-- Manager.GetWindow: the current window-scoping field. -/
def ScreenManager.GetWindow (m : ScreenManager) : String :=
  m.windowID

/-- The screen manager packaged as the terminal.WindowManager interface, over
a fixed external environment. -/
def screenOps (env : ScreenEnv) : WindowManager ScreenManager :=
  { EnsureSession := fun m => m.EnsureSession env
    SessionExists := fun m => m.SessionExists env
    CapturePane := fun m => m.CapturePane env
    GetPaneInfo := fun m => m.GetPaneInfo env
    GetScrollbackHistory := fun m lines => m.GetScrollbackHistory env lines
    KillSession := fun m => m.KillSession env
    ListWindows := fun m => m.ListWindows env
    SetWindow := fun m w => m.SetWindow w
    GetWindow := fun m => m.GetWindow }

/-- server.NewServer for the "screen" backend type: builds the screen manager,
applies the optional startup window id, and packages the server. -/
def newScreenServer (env : ScreenEnv) (sessionName windowID : String) : Server ScreenManager :=
  let m := screenNewManager sessionName
  let m2 := if windowID ≠ "" then m.SetWindow windowID else m
  { ops := screenOps env, terminalManager := m2, terminalType := "screen" }

/-! Statement helpers and concrete inputs used by witnesses. -/

/-- The tool-result wrapping Server.callTool applies to the scrollback backend
call's outcome (read_scrollback's two return paths). -/
def scrollbackWrap : Except String String → CallToolResult
  | Except.error err => { content := [{ type := "text", text := "Error: " ++ err }], isError := true }
  | Except.ok content => { content := [{ type := "text", text := content }], isError := false }

/-- A tools/call request for a named tool with the given arguments object. -/
def toolCallReq (id : Option JsonId) (name : String) (args : List (String × Json)) :
    JSONRPCRequest :=
  { jsonrpc := "2.0", id := id, method := "tools/call",
    params := Json.obj [("name", Json.str name), ("arguments", Json.obj args)] }

/-- A resources/read request for the given URI. -/
def resourceReadReq (id : Option JsonId) (uri : String) : JSONRPCRequest :=
  { jsonrpc := "2.0", id := id, method := "resources/read",
    params := Json.obj [("uri", Json.str uri)] }

/-- A server over the screen backend with an explicit manager state (the
"screen" branch of server.NewServer, with the manager state exposed). -/
def screenServer (env : ScreenEnv) (m : ScreenManager) : Server ScreenManager :=
  { ops := screenOps env, terminalManager := m, terminalType := "screen" }

/-- A benign external environment: `screen -ls` reports the session "main"
detached, the hardcopy pipeline succeeds, while `screen -Q info` is
unsupported. -/
def demoEnv : ScreenEnv :=
  { lsRun := Except.ok "There is a screen on:\n\t1234.main\t(Detached)\n1 Socket in /run/screen."
    createRun := Except.ok ()
    hardcopyRun := Except.ok ()
    catRun := Except.ok "demo pane content"
    infoRun := Except.error "screen does not support -Q info"
    scrollHardcopyRun := Except.ok ()
    tailRun := fun _ => Except.ok "demo scrollback"
    windowsRun := Except.error "query failed"
    killRun := Except.ok () }

/-- An environment whose `screen -ls` invocation fails with a non-exit
error, so that EnsureSession fails at startup. -/
def failEnv : ScreenEnv :=
  { lsRun := Except.error (CmdError.other "boom")
    createRun := Except.ok ()
    hardcopyRun := Except.ok ()
    catRun := Except.ok ""
    infoRun := Except.ok ""
    scrollHardcopyRun := Except.ok ()
    tailRun := fun _ => Except.ok ""
    windowsRun := Except.ok ""
    killRun := Except.ok () }

/-- An environment whose hardcopy invocation fails, so CapturePane fails. -/
def capFailEnv : ScreenEnv :=
  { demoEnv with
    hardcopyRun := Except.error { errMsg := "exit status 1", stderr := "No screen session found" } }

/-- The manager for session "main" scoped to the default window. -/
def demoManager : ScreenManager := screenNewManager "main"

/-- A concrete working server. -/
def demoServer : Server ScreenManager := screenServer demoEnv demoManager

/-- A concrete server whose EnsureSession fails. -/
def failServer : Server ScreenManager := screenServer failEnv demoManager

/-- A concrete decoded initialize request. -/
def initReq : JSONRPCRequest :=
  { jsonrpc := "2.0", id := some (JsonId.num 1), method := "initialize", params := Json.null }

/-! Shared lemmas. -/

/-- Appending to a non-empty string on the left stays non-empty. -/
theorem append_ne_empty_left (a b : String) (h : a ≠ "") : a ++ b ≠ "" := by
  intro hab
  apply h
  have hl : (a ++ b).length = 0 := by rw [hab]; rfl
  rw [String.length_append] at hl
  have ha : a.length = 0 := by omega
  cases a with
  | mk data =>
    cases data with
    | nil => rfl
    | cons c cs => simp [String.length] at ha

/-- Every branch of handleRequest echoes the request's id into the response. -/
theorem handleRequest_id {σ : Type} (s : Server σ) (r : JSONRPCRequest) :
    (s.handleRequest r).1.id = r.id := by
  unfold Server.handleRequest
  split <;> (try split) <;> rfl

/-- The serving loop maps each decoded request to a response whose id echoes
the request's. -/
theorem processRequests_map_id {σ : Type} (s : Server σ) (reqs : List JSONRPCRequest) :
    (s.processRequests reqs).map JSONRPCResponse.id = reqs.map JSONRPCRequest.id := by
  induction reqs generalizing s with
  | nil => rfl
  | cons r rs ih =>
    simp only [Server.processRequests, List.map_cons]
    exact congrArg₂ List.cons (handleRequest_id s r) (ih _)

/-- C9: every response constructed by the dispatcher for a decoded request has
exactly one of result or error set (never both, never neither), for every
method string and every parameter value, even though the response type itself
does not enforce this mutual exclusion. -/
theorem handle_request_result_error_exclusive {σ : Type} (s : Server σ) (r : JSONRPCRequest) :
    ((s.handleRequest r).1.result ≠ none ∧ (s.handleRequest r).1.error = none) ∨
    ((s.handleRequest r).1.result = none ∧ (s.handleRequest r).1.error ≠ none) := by
  unfold Server.handleRequest
  split <;> (try split) <;> simp

/-- C10: for every successfully decoded request, the serving loop writes
exactly one response whose id field echoes the request's id, including
requests whose id is absent: a request with no id still receives exactly one
response, carrying the absent (null) id. -/
theorem serving_loop_one_response_per_request {σ : Type} (s : Server σ)
    (reqs : List JSONRPCRequest) :
    (s.processRequests reqs).map JSONRPCResponse.id = reqs.map JSONRPCRequest.id ∧
    (s.processRequests reqs).length = reqs.length := by
  refine ⟨processRequests_map_id s reqs, ?_⟩
  have h := congrArg List.length (processRequests_map_id s reqs)
  simpa using h

/-- C6: for every request whose method is none of the five dispatched methods,
the dispatcher returns an RPC error with code -32601 whose message contains the
exact method string requested, leaves the backend state unchanged, and the
serving loop continues with the remaining requests. -/
theorem unknown_method_not_found_error {σ : Type} (s : Server σ) (req : JSONRPCRequest)
    (h1 : req.method ≠ "initialize") (h2 : req.method ≠ "tools/list")
    (h3 : req.method ≠ "tools/call") (h4 : req.method ≠ "resources/list")
    (h5 : req.method ≠ "resources/read") :
    (s.handleRequest req).1.error =
      some { code := -32601, message := "Method not found: " ++ req.method } ∧
    (s.handleRequest req).1.result = none ∧
    (s.handleRequest req).2 = s ∧
    ∀ rest, s.processRequests (req :: rest) =
      (s.handleRequest req).1 :: s.processRequests rest := by
  have hdef : s.handleRequest req =
      ({ jsonrpc := "2.0", id := req.id, result := none,
         error := some { code := -32601, message := "Method not found: " ++ req.method } }, s) := by
    unfold Server.handleRequest
    split <;> simp_all
  refine ⟨by rw [hdef], by rw [hdef], by rw [hdef], ?_⟩
  intro rest
  simp only [Server.processRequests]
  rw [hdef]

/-- Witness for C6 at the concrete unknown method "foo/bar". -/
theorem unknown_method_not_found_error_witness :
    (demoServer.handleRequest
        { jsonrpc := "2.0", id := some (JsonId.num 7), method := "foo/bar",
          params := Json.null }).1.error =
      some { code := -32601, message := "Method not found: " ++ "foo/bar" } :=
  (unknown_method_not_found_error demoServer
    { jsonrpc := "2.0", id := some (JsonId.num 7), method := "foo/bar", params := Json.null }
    (by decide) (by decide) (by decide) (by decide) (by decide)).1

/-- C3 counterexample: with a backend whose initial EnsureSession fails, Start
returns the fatal wrapped error having written nothing at all to the output
stream - no best-effort RPC-level error response is attempted before the
process terminates. -/
theorem start_ensure_failure_emits_no_response :
    (failServer.Start [initReq]).output = [] ∧
    (failServer.Start [initReq]).result =
      Except.error
        "failed to setup terminal session: failed to check session: failed to list sessions: boom" :=
  ⟨rfl, rfl⟩

/-- C3 (amended): if the initial EnsureSession performed at startup fails, the
process terminates with a non-zero outcome without ever entering the
request-serving loop; nothing (in particular no best-effort RPC-level error
response) is written to the output stream. -/
theorem ensure_failure_fatal_silent {σ : Type} (s : Server σ) (input : List JSONRPCRequest)
    (e : String) (h : s.ops.EnsureSession s.terminalManager = Except.error e) :
    (s.Start input).output = [] ∧
    (s.Start input).result = Except.error ("failed to setup terminal session: " ++ e) ∧
    (mainRun s input).1 = 1 := by
  simp [mainRun, Server.Start, h]

/-- Witness for C3's amended theorem at the concrete failing backend. -/
theorem ensure_failure_fatal_silent_witness :
    (failServer.Start [initReq]).output = [] ∧
    (failServer.Start [initReq]).result =
      Except.error ("failed to setup terminal session: " ++
        "failed to check session: failed to list sessions: boom") ∧
    (mainRun failServer [initReq]).1 = 1 :=
  ensure_failure_fatal_silent failServer [initReq]
    "failed to check session: failed to list sessions: boom" rfl

/-- C2: tools/list returns a descriptor set containing exactly the five tools
read_terminal, read_scrollback, get_terminal_info, list_windows, set_window,
and every descriptor has a non-empty name, a non-empty description, and an
input schema whose type is "object". -/
theorem tools_list_static_descriptor_set {σ : Type} (s : Server σ) :
    (s.listTools).tools.map Tool.name =
      ["read_terminal", "read_scrollback", "get_terminal_info", "list_windows", "set_window"] ∧
    ∀ tool ∈ (s.listTools).tools,
      tool.name ≠ "" ∧ tool.description ≠ "" ∧ tool.inputSchema.type = "object" := by
  constructor
  · rfl
  · intro tool htool
    simp only [Server.listTools, List.mem_cons, List.not_mem_nil, or_false] at htool
    rcases htool with h | h | h | h | h <;> subst h
    · exact ⟨by simp, append_ne_empty_left _ _ (append_ne_empty_left _ _ (by decide)), rfl⟩
    · exact ⟨by simp, append_ne_empty_left _ _ (append_ne_empty_left _ _ (by decide)), rfl⟩
    · exact ⟨by simp, by simp, rfl⟩
    · exact ⟨by simp, append_ne_empty_left _ _ (append_ne_empty_left _ _ (by decide)), rfl⟩
    · exact ⟨by simp, append_ne_empty_left _ _ (append_ne_empty_left _ _ (by decide)), rfl⟩

/-- Witness for C2: the head descriptor of the concrete server's tool set has
the three required properties. -/
theorem tools_list_static_descriptor_set_witness :
    ({ name := "read_terminal"
       description := "Read the current terminal content from the " ++ demoServer.terminalType
         ++ " session"
       inputSchema := { type := "object", properties := [], required := [] } } : Tool).name ≠ "" ∧
    ({ name := "read_terminal"
       description := "Read the current terminal content from the " ++ demoServer.terminalType
         ++ " session"
       inputSchema := { type := "object", properties := [], required := [] } } : Tool).description ≠ "" ∧
    ({ name := "read_terminal"
       description := "Read the current terminal content from the " ++ demoServer.terminalType
         ++ " session"
       inputSchema := { type := "object", properties := [], required := [] } } : Tool).inputSchema.type
      = "object" :=
  (tools_list_static_descriptor_set demoServer).2 _ (List.mem_cons_self _ _)

/-- C1: for every backend capture failure e, a tools/call request naming
read_terminal yields a successful RPC response (error unset) whose payload is
a tool result with is_error set and a text content item containing the
description of e, while a resources/read request for terminal://current under
the same failure yields an RPC-level error with code -32603 and no result. -/
theorem capture_failure_tool_soft_resource_hard {σ : Type} (ops : WindowManager σ) (st : σ)
    (t e : String) (id1 id2 : Option JsonId) (p1 p2 : Json)
    (ctr : CallToolRequest) (rr : ReadResourceRequest)
    (hcap : ops.CapturePane st = Except.error e)
    (hdec1 : decodeCallToolRequest p1 = Except.ok ctr) (hname : ctr.name = "read_terminal")
    (hdec2 : decodeReadResourceRequest p2 = Except.ok rr) (huri : rr.uri = "terminal://current") :
    (({ ops := ops, terminalManager := st, terminalType := t } : Server σ).handleRequest
        { jsonrpc := "2.0", id := id1, method := "tools/call", params := p1 }).1.error = none ∧
    (({ ops := ops, terminalManager := st, terminalType := t } : Server σ).handleRequest
        { jsonrpc := "2.0", id := id1, method := "tools/call", params := p1 }).1.result =
      some (MCPResult.toolCall
        { content := [{ type := "text", text := "Error: " ++ e }], isError := true }) ∧
    (({ ops := ops, terminalManager := st, terminalType := t } : Server σ).handleRequest
        { jsonrpc := "2.0", id := id2, method := "resources/read", params := p2 }).1.error =
      some { code := -32603, message := e } ∧
    (({ ops := ops, terminalManager := st, terminalType := t } : Server σ).handleRequest
        { jsonrpc := "2.0", id := id2, method := "resources/read", params := p2 }).1.result =
      none := by
  have hct : ({ ops := ops, terminalManager := st, terminalType := t } : Server σ).callTool
      { jsonrpc := "2.0", id := id1, method := "tools/call", params := p1 } =
      (Except.ok { content := [{ type := "text", text := "Error: " ++ e }], isError := true },
       { ops := ops, terminalManager := st, terminalType := t }) := by
    simp only [Server.callTool, hdec1, hname, hcap]
  have hrr : ({ ops := ops, terminalManager := st, terminalType := t } : Server σ).readResource
      { jsonrpc := "2.0", id := id2, method := "resources/read", params := p2 } =
      Except.error e := by
    simp only [Server.readResource, hdec2, huri, hcap]
  refine ⟨?_, ?_, ?_, ?_⟩ <;> simp only [Server.handleRequest, hct, hrr]

/-- Witness for C1 at the screen backend with a failing hardcopy invocation. -/
theorem capture_failure_tool_soft_resource_hard_witness :
    ((screenServer capFailEnv demoManager).handleRequest
        { jsonrpc := "2.0", id := some (JsonId.num 3), method := "tools/call",
          params := Json.obj [("name", Json.str "read_terminal"), ("arguments", Json.obj [])] }).1.error
      = none ∧
    ((screenServer capFailEnv demoManager).handleRequest
        { jsonrpc := "2.0", id := some (JsonId.num 3), method := "tools/call",
          params := Json.obj [("name", Json.str "read_terminal"), ("arguments", Json.obj [])] }).1.result
      = some (MCPResult.toolCall
          { content :=
              [{ type := "text",
                 text := "Error: failed to capture screen content: exit status 1 (stderr: No screen session found)" }],
            isError := true }) ∧
    ((screenServer capFailEnv demoManager).handleRequest
        { jsonrpc := "2.0", id := some (JsonId.num 4), method := "resources/read",
          params := Json.obj [("uri", Json.str "terminal://current")] }).1.error
      = some { code := -32603,
               message := "failed to capture screen content: exit status 1 (stderr: No screen session found)" } ∧
    ((screenServer capFailEnv demoManager).handleRequest
        { jsonrpc := "2.0", id := some (JsonId.num 4), method := "resources/read",
          params := Json.obj [("uri", Json.str "terminal://current")] }).1.result
      = none :=
  capture_failure_tool_soft_resource_hard (screenOps capFailEnv) demoManager "screen"
    "failed to capture screen content: exit status 1 (stderr: No screen session found)"
    (some (JsonId.num 3)) (some (JsonId.num 4))
    (Json.obj [("name", Json.str "read_terminal"), ("arguments", Json.obj [])])
    (Json.obj [("uri", Json.str "terminal://current")])
    { name := "read_terminal", arguments := [] }
    { uri := "terminal://current" }
    rfl rfl rfl rfl rfl

/-- C5: for tools/call read_scrollback, an absent lines argument invokes the
backend scrollback operation with 100, and a numeric lines argument invokes it
with the number truncated toward zero - so the integer and floating-point
encodings of 100 (both of which Go decodes to the same float64) request the
same line count. -/
theorem read_scrollback_default_and_truncation {σ : Type} (ops : WindowManager σ) (st : σ)
    (t : String) (id : Option JsonId) (args : List (String × Json)) (q : ℚ) :
    (jsonLookup args "lines" = none →
      (({ ops := ops, terminalManager := st, terminalType := t } : Server σ).callTool
          (toolCallReq id "read_scrollback" args)).1 =
        Except.ok (scrollbackWrap (ops.GetScrollbackHistory st 100))) ∧
    (jsonLookup args "lines" = some (Json.num q) →
      (({ ops := ops, terminalManager := st, terminalType := t } : Server σ).callTool
          (toolCallReq id "read_scrollback" args)).1 =
        Except.ok (scrollbackWrap (ops.GetScrollbackHistory st (truncTowardZero q)))) ∧
    truncTowardZero 100 = 100 := by
  refine ⟨?_, ?_, by decide⟩
  · intro h
    cases hg : ops.GetScrollbackHistory st 100 <;>
      simp [Server.callTool, toolCallReq, decodeCallToolRequest, jsonLookup, h, hg, scrollbackWrap]
  · intro h
    cases hg : ops.GetScrollbackHistory st (truncTowardZero q) <;>
      simp [Server.callTool, toolCallReq, decodeCallToolRequest, jsonLookup, h, hg, scrollbackWrap]

/-- Witness for C5 on the concrete screen server: absent lines, and lines
given as the numeral 100. -/
theorem read_scrollback_default_and_truncation_witness :
    ((screenServer demoEnv demoManager).callTool
        (toolCallReq (some (JsonId.num 5)) "read_scrollback" [])).1 =
      Except.ok (scrollbackWrap ((screenOps demoEnv).GetScrollbackHistory demoManager 100)) ∧
    ((screenServer demoEnv demoManager).callTool
        (toolCallReq (some (JsonId.num 5)) "read_scrollback" [("lines", Json.num 100)])).1 =
      Except.ok (scrollbackWrap
        ((screenOps demoEnv).GetScrollbackHistory demoManager (truncTowardZero 100))) :=
  ⟨(read_scrollback_default_and_truncation (screenOps demoEnv) demoManager "screen"
      (some (JsonId.num 5)) [] 0).1 rfl,
   (read_scrollback_default_and_truncation (screenOps demoEnv) demoManager "screen"
      (some (JsonId.num 5)) [("lines", Json.num 100)] 100).2.1 rfl⟩

/-- C4: a tools/call naming set_window whose window_id argument decodes as a
string w succeeds with a confirmation text, sets the backend window-scoping
state to w, and a subsequent get_terminal_info reflects w in its output text;
an absent or non-string window_id yields an is_error tool result and leaves
the state unchanged. -/
theorem set_window_string_switches_scope (env : ScreenEnv) (m : ScreenManager)
    (id1 id2 : Option JsonId) (args : List (String × Json)) (w : String) :
    (jsonLookup args "window_id" = some (Json.str w) →
      ((screenServer env m).handleRequest (toolCallReq id1 "set_window" args)).1.error = none ∧
      ((screenServer env m).handleRequest (toolCallReq id1 "set_window" args)).1.result =
        some (MCPResult.toolCall
          { content := [{ type := "text", text := "Switched to window/pane: " ++ w }],
            isError := false }) ∧
      ((screenServer env m).handleRequest
          (toolCallReq id1 "set_window" args)).2.terminalManager.windowID = w ∧
      (((screenServer env m).handleRequest (toolCallReq id1 "set_window" args)).2.handleRequest
          (toolCallReq id2 "get_terminal_info" [])).1.result =
        some (MCPResult.toolCall
          { content :=
              [{ type := "text",
                 text := "Terminal Info (screen):\n- Width: 80\n- Height: 24\n- Current Path: unknown\n- Window/Pane ID: " ++ w }],
            isError := false })) ∧
    ((∀ w2, jsonLookup args "window_id" ≠ some (Json.str w2)) →
      ((screenServer env m).handleRequest (toolCallReq id1 "set_window" args)).1.result =
        some (MCPResult.toolCall
          { content := [{ type := "text", text := "Error: window_id must be a string" }],
            isError := true }) ∧
      ((screenServer env m).handleRequest (toolCallReq id1 "set_window" args)).2 =
        screenServer env m) := by
  constructor
  · intro h
    have hcall : (screenServer env m).callTool (toolCallReq id1 "set_window" args) =
        (Except.ok
          { content := [{ type := "text", text := "Switched to window/pane: " ++ w }],
            isError := false },
         screenServer env { m with windowID := w }) := by
      simp [Server.callTool, toolCallReq, decodeCallToolRequest, jsonLookup, h, screenServer,
        screenOps, ScreenManager.SetWindow]
    simp only [toolCallReq] at hcall
    have hstep : ((screenServer env m).handleRequest (toolCallReq id1 "set_window" args)).2 =
        screenServer env { m with windowID := w } := by
      simp [Server.handleRequest, toolCallReq, hcall]
    refine ⟨?_, ?_, ?_, ?_⟩
    · simp [Server.handleRequest, toolCallReq, hcall]
    · simp [Server.handleRequest, toolCallReq, hcall]
    · rw [hstep]
      rfl
    · rw [hstep]
      cases hinfo : env.infoRun with
      | error e =>
        simp [Server.handleRequest, Server.callTool, toolCallReq, decodeCallToolRequest,
          jsonLookup, screenServer, screenOps, ScreenManager.GetPaneInfo, ScreenManager.GetWindow,
          mapGet, List.lookup, hinfo]
      | ok out =>
        simp [Server.handleRequest, Server.callTool, toolCallReq, decodeCallToolRequest,
          jsonLookup, screenServer, screenOps, ScreenManager.GetPaneInfo, ScreenManager.GetWindow,
          mapGet, List.lookup, hinfo]
  · intro h2
    cases hjl : jsonLookup args "window_id" with
    | none =>
      constructor <;>
        simp [Server.handleRequest, Server.callTool, toolCallReq, decodeCallToolRequest,
          jsonLookup, hjl]
    | some v =>
      cases v with
      | str w2 => exact absurd hjl (h2 w2)
      | null =>
        constructor <;>
          simp [Server.handleRequest, Server.callTool, toolCallReq, decodeCallToolRequest,
            jsonLookup, hjl]
      | bool b =>
        constructor <;>
          simp [Server.handleRequest, Server.callTool, toolCallReq, decodeCallToolRequest,
            jsonLookup, hjl]
      | num n =>
        constructor <;>
          simp [Server.handleRequest, Server.callTool, toolCallReq, decodeCallToolRequest,
            jsonLookup, hjl]
      | arr elems =>
        constructor <;>
          simp [Server.handleRequest, Server.callTool, toolCallReq, decodeCallToolRequest,
            jsonLookup, hjl]
      | obj fields =>
        constructor <;>
          simp [Server.handleRequest, Server.callTool, toolCallReq, decodeCallToolRequest,
            jsonLookup, hjl]

/-- Witness for C4: switching to window "2" on the concrete screen server,
then reading the terminal info. -/
theorem set_window_string_switches_scope_witness :
    ((screenServer demoEnv demoManager).handleRequest
        (toolCallReq (some (JsonId.num 1)) "set_window" [("window_id", Json.str "2")])).1.result =
      some (MCPResult.toolCall
        { content := [{ type := "text", text := "Switched to window/pane: " ++ "2" }],
          isError := false }) ∧
    (((screenServer demoEnv demoManager).handleRequest
        (toolCallReq (some (JsonId.num 1)) "set_window" [("window_id", Json.str "2")])).2.handleRequest
        (toolCallReq (some (JsonId.num 2)) "get_terminal_info" [])).1.result =
      some (MCPResult.toolCall
        { content :=
            [{ type := "text",
               text := "Terminal Info (screen):\n- Width: 80\n- Height: 24\n- Current Path: unknown\n- Window/Pane ID: " ++ "2" }],
          isError := false }) :=
  ⟨((set_window_string_switches_scope demoEnv demoManager (some (JsonId.num 1))
      (some (JsonId.num 2)) [("window_id", Json.str "2")] "2").1 rfl).2.1,
   ((set_window_string_switches_scope demoEnv demoManager (some (JsonId.num 1))
      (some (JsonId.num 2)) [("window_id", Json.str "2")] "2").1 rfl).2.2.2⟩

/-- C7: the screen backend's ListWindows never returns an error and never an
empty sequence: when window enumeration fails or yields nothing it returns
the single fallback entry (id "0", name "default"). -/
theorem screen_list_windows_total_nonempty (m : ScreenManager) (env : ScreenEnv) :
    (∃ ws, m.ListWindows env = Except.ok ws ∧ ws ≠ []) ∧
    (∀ e, env.windowsRun = Except.error e → m.ListWindows env = Except.ok listWindowsFallback) ∧
    (∀ out, env.windowsRun = Except.ok out → out.trim = "" →
      m.ListWindows env = Except.ok listWindowsFallback) := by
  refine ⟨?_, ?_, ?_⟩
  · unfold ScreenManager.ListWindows ScreenManager.listWindowsOriginal
    cases henv : env.windowsRun with
    | error e => exact ⟨listWindowsFallback, rfl, by simp [listWindowsFallback]⟩
    | ok raw =>
      by_cases htrim : raw.trim = ""
      · exact ⟨listWindowsFallback, by simp [htrim], by simp [listWindowsFallback]⟩
      · by_cases hw : buildWindows (((goFields raw.trim).foldl stepField ([], -1)).1) = []
        · exact ⟨listWindowsFallback, by simp [htrim, hw], by simp [listWindowsFallback]⟩
        · refine ⟨buildWindows (((goFields raw.trim).foldl stepField ([], -1)).1), ?_, hw⟩
          simp [htrim, hw]
  · intro e he
    simp [ScreenManager.ListWindows, ScreenManager.listWindowsOriginal, he]
  · intro out hout htrim
    simp [ScreenManager.ListWindows, ScreenManager.listWindowsOriginal, hout, htrim]

/-- Witness for C7 at the concrete environment whose windows query fails. -/
theorem screen_list_windows_total_nonempty_witness :
    demoManager.ListWindows demoEnv = Except.ok listWindowsFallback :=
  (screen_list_windows_total_nonempty demoManager demoEnv).2.1 "query failed" rfl

/-- C8: the screen backend's GetPaneInfo never returns an error: a failed info
query falls back to the documented defaults width "80", height "24",
current_path "unknown", and in every case the returned mapping contains width
and height keys. -/
theorem screen_get_pane_info_total_defaults (m : ScreenManager) (env : ScreenEnv) :
    (∃ info, m.GetPaneInfo env = Except.ok info ∧
      info.lookup "width" = some "80" ∧ info.lookup "height" = some "24") ∧
    (∀ e, env.infoRun = Except.error e →
      m.GetPaneInfo env = Except.ok
        [("width", "80"), ("height", "24"), ("current_path", "unknown"),
         ("window_id", m.windowID)]) := by
  constructor
  · cases h : env.infoRun with
    | error e =>
      exact ⟨[("width", "80"), ("height", "24"), ("current_path", "unknown"),
              ("window_id", m.windowID)],
        by simp [ScreenManager.GetPaneInfo, h], rfl, rfl⟩
    | ok out =>
      exact ⟨[("width", "80"), ("height", "24"), ("current_path", "unknown"),
              ("window_id", m.windowID), ("info", out.trim)],
        by simp [ScreenManager.GetPaneInfo, h], rfl, rfl⟩
  · intro e he
    simp [ScreenManager.GetPaneInfo, he]

/-- Witness for C8 at the concrete environment whose info query fails. -/
theorem screen_get_pane_info_total_defaults_witness :
    demoManager.GetPaneInfo demoEnv = Except.ok
      [("width", "80"), ("height", "24"), ("current_path", "unknown"), ("window_id", "")] :=
  (screen_get_pane_info_total_defaults demoManager demoEnv).2 "screen does not support -Q info" rfl

end Wingman
